import Mathlib

/-!
Shallow embedding of the GPU resource / frame-pipeline manager of
`ComputeShaderRayTracing` (`src/lib.rs`).

Modelling conventions:
* `f32`/`f64` scalars are modelled as `ℚ` (exact arithmetic standing in for
  the floating-point values the code manipulates).
* GPU byte buffers are modelled at 4-byte word granularity by `PackedWord`
  lists: every field of the serialized structs is a 4-byte unit (`u32`
  counts, `f32` scalars, or padding), so byte length = 4 * word count.
* The `encase` layout rules (WGSL address-space layout) used by the
  `#[derive(ShaderType)]` structs are embedded by the `roundUp` /
  `structMembersEnd` / `shaderStructSize` functions below.
* Fallible operations (`Vec::remove`, which panics on an out-of-range
  index) are modelled with `Except`.
* `wgpu`/`egui` GPU resources are internally reference counted; resource
  release order (the claim about the replacement paths of `App::render`)
  is modelled by explicit event traces acting on reference counts.
-/

/-- A 3-component `f32` vector (`cgmath::Vector3<f32>`), components as `ℚ`. -/
structure Vec3 where
  x : ℚ
  y : ℚ
  z : ℚ
deriving DecidableEq

def Vec3.add (a b : Vec3) : Vec3 := ⟨a.x + b.x, a.y + b.y, a.z + b.z⟩

instance : Add Vec3 := ⟨Vec3.add⟩

def Vec3.smul (c : ℚ) (v : Vec3) : Vec3 := ⟨c * v.x, c * v.y, c * v.z⟩

instance : SMul ℚ Vec3 := ⟨Vec3.smul⟩

/-- The `cgmath` cross product. -/
def Vec3.cross (a b : Vec3) : Vec3 :=
  ⟨a.y * b.z - a.z * b.y, a.z * b.x - a.x * b.z, a.x * b.y - a.y * b.x⟩

/-- The `cgmath` dot product. -/
def Vec3.dot (a b : Vec3) : ℚ := a.x * b.x + a.y * b.y + a.z * b.z

/-- Type `cgmath::Quaternion<f32>`: scalar part `s` and vector part `v`. -/
structure Quat where
  s : ℚ
  v : Vec3
deriving DecidableEq

/-- Rotation of a vector by a quaternion, the `cgmath`
`impl Mul<Vector3<S>> for Quaternion<S>`:
`tmp = self.v.cross(vec) + (vec * self.s); (self.v.cross(tmp) * 2) + vec`. -/
def Quat.rotateVec (q : Quat) (vec : Vec3) : Vec3 :=
  let tmp := (q.v.cross vec) + q.s • vec
  (2 : ℚ) • (q.v.cross tmp) + vec

/-- The `Camera` struct from `src/lib.rs` lines 6-14. -/
structure Camera where
  position : Vec3
  rot : Quat  -- source field name: `rotation`
  up_sky_color : Vec3
  down_sky_color : Vec3
  min_distance : ℚ
  max_distance : ℚ
deriving DecidableEq

/-- The `CameraUniform` struct from `src/lib.rs` lines 16-26. -/
structure CameraUniform where
  position : Vec3
  forward : Vec3
  right : Vec3
  up : Vec3
  up_sky_color : Vec3
  down_sky_color : Vec3
  min_distance : ℚ
  max_distance : ℚ
deriving DecidableEq

/-- The `impl From<Camera> for CameraUniform`, `src/lib.rs` lines 52-68. -/
def CameraUniform.fromCamera (camera : Camera) : CameraUniform :=
  let forward := camera.rot.rotateVec ⟨0, 0, 1⟩
  let right := camera.rot.rotateVec ⟨1, 0, 0⟩
  let up := camera.rot.rotateVec ⟨0, 1, 0⟩
  { position := camera.position
    forward := forward
    right := right
    up := up
    up_sky_color := camera.up_sky_color
    down_sky_color := camera.down_sky_color
    min_distance := camera.min_distance
    max_distance := camera.max_distance }

/-- The `Sphere` struct from `src/lib.rs` lines 28-33. -/
structure Sphere where
  position : Vec3
  radius : ℚ
  color : Vec3
deriving DecidableEq

/-- The `impl Default for Sphere`, `src/lib.rs` lines 35-43. -/
def Sphere.defaultSphere : Sphere := ⟨⟨0, 0, 0⟩, 1, ⟨1, 1, 1⟩⟩

/-! ## WGSL / `encase` layout rules

The `#[derive(ShaderType)]` of `encase` lays structs out by the WGSL
address space layout rules: each member is placed at the previous end
rounded up to the alignment of the member, and the struct size is the
end of the members rounded up to the struct alignment (the max member
alignment).
`vec3<f32>` has alignment 16 and size 12; `f32`/`u32` have alignment 4
and size 4. -/

/-- Round `n` up to a multiple of `align`. -/
def roundUp (align n : ℕ) : ℕ := (n + align - 1) / align * align

/-- Pair (alignment, size) of `vec3<f32>`. -/
def vec3Layout : ℕ × ℕ := (16, 12)

/-- Pair (alignment, size) of `f32`. -/
def f32Layout : ℕ × ℕ := (4, 4)

/-- Pair (alignment, size) of `u32` (the `ArrayLength` field). -/
def u32Layout : ℕ × ℕ := (4, 4)

/-- Offset one past the last member, given each member as (align, size). -/
def structMembersEnd (fields : List (ℕ × ℕ)) : ℕ :=
  fields.foldl (fun off f => roundUp f.1 off + f.2) 0

/-- Struct alignment: the maximum member alignment. -/
def structAlignOf (fields : List (ℕ × ℕ)) : ℕ :=
  fields.foldl (fun a f => max a f.1) 1

/-- WGSL struct size: end of the members rounded up to the struct alignment. -/
def shaderStructSize (fields : List (ℕ × ℕ)) : ℕ :=
  roundUp (structAlignOf fields) (structMembersEnd fields)

/-- The members of `CameraUniform`, in declaration order:
six `vec3<f32>` then two `f32`. -/
def cameraUniformMembers : List (ℕ × ℕ) :=
  [vec3Layout, vec3Layout, vec3Layout, vec3Layout, vec3Layout, vec3Layout,
   f32Layout, f32Layout]

/-- Constant `<CameraUniform as ShaderSize>::SHADER_SIZE` (`src/lib.rs` lines 160, 298). -/
def cameraUniformShaderSize : ℕ := shaderStructSize cameraUniformMembers

/-- The members of `Sphere`: `position`, `radius`, `color`. -/
def sphereMembers : List (ℕ × ℕ) := [vec3Layout, f32Layout, vec3Layout]

/-- Byte stride of one `Sphere` record in the runtime-sized array. -/
def sphereShaderSize : ℕ := shaderStructSize sphereMembers

/-- Serialized size of `SpheresBuffer` with `n` spheres: the `ArrayLength`
header (a `u32` at offset 0) padded to the 16-byte alignment of the
runtime array, followed by `n` sphere records. -/
def spheresBufferByteSize (n : ℕ) : ℕ :=
  roundUp (structAlignOf sphereMembers) u32Layout.2 + sphereShaderSize * n

/-! ## Serialized buffers at 4-byte word granularity -/

/-- One 4-byte unit of a serialized GPU buffer. -/
inductive PackedWord where
  | u32 : ℕ → PackedWord
  | f32 : ℚ → PackedWord
  | pad : PackedWord
deriving DecidableEq

/-- The bytes `UniformBuffer::write` produces for a `CameraUniform`
(`src/lib.rs` lines 157-169 and 295-303), one entry per 4-byte word:
each `vec3<f32>` occupies 12 bytes at a 16-byte boundary, the two `f32`
scalars pack directly after `down_sky_color`, and the buffer is padded to
the declared `SHADER_SIZE`. -/
def packCameraUniform (u : CameraUniform) : List PackedWord :=
  [.f32 u.position.x, .f32 u.position.y, .f32 u.position.z, .pad,
   .f32 u.forward.x, .f32 u.forward.y, .f32 u.forward.z, .pad,
   .f32 u.right.x, .f32 u.right.y, .f32 u.right.z, .pad,
   .f32 u.up.x, .f32 u.up.y, .f32 u.up.z, .pad,
   .f32 u.up_sky_color.x, .f32 u.up_sky_color.y, .f32 u.up_sky_color.z, .pad,
   .f32 u.down_sky_color.x, .f32 u.down_sky_color.y, .f32 u.down_sky_color.z,
   .f32 u.min_distance, .f32 u.max_distance, .pad, .pad, .pad]

/-- One serialized `Sphere` record: position (3 x f32), radius (f32),
color (3 x f32), and one trailing pad word to reach the 16-byte-aligned
32-byte stride. -/
def packSphere (s : Sphere) : List PackedWord :=
  [.f32 s.position.x, .f32 s.position.y, .f32 s.position.z, .f32 s.radius,
   .f32 s.color.x, .f32 s.color.y, .f32 s.color.z, .pad]

/-- The bytes `StorageBuffer::write` produces for a `SpheresBuffer`
(`src/lib.rs` lines 45-50 and 306-310): the `ArrayLength` count as a
`u32`, padding up to the 16-byte array alignment, then the packed
sphere records. -/
def packSpheres (spheres : List Sphere) : List PackedWord :=
  .u32 spheres.length :: .pad :: .pad :: .pad :: (spheres.map packSphere).flatten

/-- Byte length of the packed `SpheresBuffer` (`buffer.len()` in
`src/lib.rs` lines 200, 311). -/
def packedSpheresByteLen (spheres : List Sphere) : ℕ :=
  4 * (packSpheres spheres).length

/-! ## Render target manager (`App::render`, `src/lib.rs` lines 245-292)

The `App` fields relevant to the render target: `texture_size`, the
texture itself (tracked by a generation number, a fresh `create_texture`
bumps it), and `texture_bind_group` / `texture_id` (tracked by a binding
generation number). -/

/-- Render-target portion of the `App` state. `textureGen` is a generation
marker for the texture resource (`create_texture` yields a fresh one);
`bindGen` marks the bind group / egui registration. -/
structure RenderTarget where
  texture_size : ℕ × ℕ
  textureGen : ℕ
  bindGen : ℕ
deriving DecidableEq

/-- The conditional render-target recreation at the top of `App::render`:
`if self.texture_size != size && width != 0 && height != 0 { ... }`
(`src/lib.rs` line 245). Inside the branch a new texture is created,
registered and bound, and `texture_size` is updated. -/
def ensureSize (t : RenderTarget) (size : ℕ × ℕ) : RenderTarget :=
  if t.texture_size ≠ size ∧ size.1 ≠ 0 ∧ size.2 ≠ 0 then
    { texture_size := size, textureGen := t.textureGen + 1, bindGen := t.bindGen + 1 }
  else t

/-- Constant `let workgroup_size = (16, 16);` (`src/lib.rs` line 345). -/
def workgroupSize : ℕ × ℕ := (16, 16)

/-- The dispatch computation of `App::render` (`src/lib.rs` lines 346-349,
357): `(texture_size + workgroup_size - 1) / workgroup_size` along each
axis, and depth 1 in `dispatch_workgroups(x, y, 1)`. -/
def dispatchCounts (texture_size : ℕ × ℕ) : ℕ × ℕ × ℕ :=
  ((texture_size.1 + workgroupSize.1 - 1) / workgroupSize.1,
   (texture_size.2 + workgroupSize.2 - 1) / workgroupSize.2,
   1)

/-- The workgroup counts a frame dispatches: `App::render` first runs the
conditional resize, then dispatches over `self.texture_size`. -/
def renderDispatch (t : RenderTarget) (size : ℕ × ℕ) : ℕ × ℕ × ℕ :=
  dispatchCounts (ensureSize t size).texture_size

/-! ## Spheres storage buffer update (`src/lib.rs` lines 305-339) -/

/-- The spheres-buffer portion of the `App` state: the recorded
`spheres_buffer_size` and the byte length `alloc` of the actually
allocated `wgpu` buffer. -/
structure SpheresBufState where
  size : ℕ
  alloc : ℕ
deriving DecidableEq

/-- The per-frame spheres-buffer update (`src/lib.rs` lines 311-338):
`if self.spheres_buffer_size < buffer.len()` reallocate a buffer of the
packed length, rebind it, and record the new size; else `write_buffer`
in place. Returns the new state and whether a reallocation happened. -/
def renderSpheresBuf (st : SpheresBufState) (packedLen : ℕ) : SpheresBufState × Bool :=
  if st.size < packedLen then ({ size := packedLen, alloc := packedLen }, true)
  else (st, false)

/-- The offset of the in-place overwrite:
`queue.write_buffer(&self.spheres_buffer, 0, &buffer)` (`src/lib.rs` line 337). -/
def spheresWriteOffset : ℕ := 0

/-- The initial `spheres_storage` of `App::new`
(`src/lib.rs` lines 182-185): one default sphere. -/
def initialSpheresStorage : List Sphere := [Sphere.defaultSphere]

/-- The initial spheres-buffer state of `App::new` (`src/lib.rs` lines
187-202, 231): the buffer is created with exactly the packed bytes and
`spheres_buffer_size` records `buffer.len()`. -/
def initSpheresBufState : SpheresBufState :=
  { size := packedSpheresByteLen initialSpheresStorage
    alloc := packedSpheresByteLen initialSpheresStorage }

/-! ## Fixed-step simulation clock (`src/lib.rs` lines 235, 384-388) -/

/-- Constant `FIXED_UPDATE_TIMESTEP: f64 = 1.0 / 60.0` (`src/lib.rs` line 235). -/
def FIXED_UPDATE_TIMESTEP : ℚ := 1 / 60

/-- The fixed-update loop of `App::update` (`src/lib.rs` lines 385-388):
`while self.fixed_update_time >= Self::FIXED_UPDATE_TIMESTEP {
self.fixed_update(); self.fixed_update_time -= Self::FIXED_UPDATE_TIMESTEP; }`.
Returns (number of `fixed_update` calls, final accumulator). -/
def fixedUpdateLoop (acc : ℚ) : ℕ × ℚ :=
  if h : FIXED_UPDATE_TIMESTEP ≤ acc then
    let p := fixedUpdateLoop (acc - FIXED_UPDATE_TIMESTEP)
    (p.1 + 1, p.2)
  else (0, acc)
termination_by (⌊acc * 60⌋).toNat
decreasing_by
  simp only [FIXED_UPDATE_TIMESTEP] at h
  have h1 : (1 : ℚ) ≤ acc * 60 := by linarith
  have h2 : ⌊(acc - FIXED_UPDATE_TIMESTEP) * 60⌋ = ⌊acc * 60⌋ - 1 := by
    have : (acc - FIXED_UPDATE_TIMESTEP) * 60 = acc * 60 - 1 := by
      simp only [FIXED_UPDATE_TIMESTEP]; ring
    rw [this, Int.floor_sub_one]
  have h3 : (1 : ℤ) ≤ ⌊acc * 60⌋ := Int.le_floor.mpr (by exact_mod_cast h1)
  omega

/-! ## Sphere removal (`App::update`, `src/lib.rs` lines 428-470) -/

/-- Operation `Vec::remove(i)`: bounds-checked before any mutation; an out-of-range
index panics (modelled as `Except.error`) and leaves the vector intact. -/
def removeSphere (spheres : List Sphere) (i : ℕ) : Except String (List Sphere) :=
  if i < spheres.length then .ok (spheres.take i ++ spheres.drop (i + 1))
  else .error ("removal index out of range")

/-- The sphere-editing loop of `App::update` (`src/lib.rs` lines 428-470):
`i` starts at 0; while `i < spheres.len()`, the UI for sphere `i` is
shown (`clicks t` tells whether its Delete button was clicked at loop
iteration `t`); on a click `spheres.remove(i)` runs, otherwise `i += 1`.
Any removal failure (out-of-range panic) would propagate. -/
def uiSpheresLoopAux (clicks : ℕ → Bool) (t : ℕ) (spheres : List Sphere) (i : ℕ) :
    Except String (List Sphere) :=
  if hi : i < spheres.length then
    if clicks t then
      match h : removeSphere spheres i with
      | .ok spheres2 => uiSpheresLoopAux clicks (t + 1) spheres2 i
      | .error e => .error e
    else uiSpheresLoopAux clicks (t + 1) spheres (i + 1)
  else .ok spheres
termination_by spheres.length - i
decreasing_by
  · have hlen : spheres2.length + 1 = spheres.length := by
      simp only [removeSphere, hi, if_true] at h
      cases h
      simp [List.length_take, List.length_drop]
      omega
    omega
  · omega

/-- The whole removal pass over the sphere list, starting at index 0. -/
def uiSpheresLoop (clicks : ℕ → Bool) (spheres : List Sphere) :
    Except String (List Sphere) :=
  uiSpheresLoopAux clicks 0 spheres 0

/-! ## Camera distance mutation interface (`src/lib.rs` lines 413-422) -/

/-- The Min Distance row of `App::update`: the drag value sets
`camera.min_distance` to `v`, then
`self.camera.min_distance = self.camera.min_distance.max(0.0001);`
(`src/lib.rs` lines 413-417). -/
def applyMinDistanceEdit (camera : Camera) (v : ℚ) : Camera :=
  { camera with min_distance := max v (1 / 10000) }

/-- The Max Distance row of `App::update`: the drag value sets
`camera.max_distance` to `v`, then
`self.camera.max_distance = self.camera.max_distance.max(0.0);`
(`src/lib.rs` lines 418-422). -/
def applyMaxDistanceEdit (camera : Camera) (v : ℚ) : Camera :=
  { camera with max_distance := max v 0 }

/-! ## Resource replacement traces (`src/lib.rs` lines 245-292, 311-333)

`wgpu` buffers/textures are reference counted: the GPU resource is
destroyed when its last reference is dropped. The two replacement paths
of `App::render` are modelled as event traces over resource ids;
`destroyedAt` finds the event at which the count of a resource reaches 0. -/

/-- A reference-counting event on a resource id. -/
inductive GpuEvent where
  | alloc : ℕ → GpuEvent
  | incRef : ℕ → GpuEvent
  | decRef : ℕ → GpuEvent
deriving DecidableEq

/-- Apply one event to the reference counts. -/
def applyEvent (counts : ℕ → ℕ) : GpuEvent → (ℕ → ℕ)
  | .alloc r => fun r2 => if r2 = r then 1 else counts r2
  | .incRef r => fun r2 => if r2 = r then counts r2 + 1 else counts r2
  | .decRef r => fun r2 => if r2 = r then counts r2 - 1 else counts r2

/-- Run a trace of events over the reference counts. -/
def runEvents (counts : ℕ → ℕ) : List GpuEvent → (ℕ → ℕ)
  | [] => counts
  | e :: rest => runEvents (applyEvent counts e) rest

/-- The index of the event that drops the reference count of resource `r` from
positive to 0, i.e. the point at which the resource is destroyed. -/
def destroyedAt (counts : ℕ → ℕ) (evs : List GpuEvent) (r : ℕ) : Option ℕ :=
  match evs with
  | [] => none
  | e :: rest =>
    if applyEvent counts e r = 0 ∧ counts r ≠ 0 then some 0
    else (destroyedAt (applyEvent counts e) rest r).map (· + 1)

/-- The index of the `alloc` event of resource `r`. -/
def allocIdx (evs : List GpuEvent) (r : ℕ) : Option ℕ :=
  evs.findIdx? (fun e => e = .alloc r)

/-- Resource id of the old render-target texture (and of the old spheres
buffer in its own trace). -/
def oldRes : ℕ := 0

/-- Resource id of the replacement resource. -/
def newRes : ℕ := 1

/-- References to the old texture before a resize: the egui renderer
registration (`register_native_texture` stored a view) and
`self.texture_bind_group`. -/
def resizeInitCounts : ℕ → ℕ := fun r => if r = oldRes then 2 else 0

/-- The render-target replacement path (`src/lib.rs` lines 245-292), in
source order:
0. `renderer.free_texture(&self.texture_id)` drops the reference of the
   registration to the old texture (line 247);
1. `create_texture` allocates the new texture (line 255);
2. `register_native_texture` stores a view of the new texture (line 269);
3. the new bind group referencing the new texture is created (line 277);
4. the assignment to `self.texture_bind_group` drops the old bind group
   and with it the last reference to the old texture (line 277). -/
def resizeTrace : List GpuEvent :=
  [.decRef oldRes, .alloc newRes, .incRef newRes, .incRef newRes, .decRef oldRes]

/-- References to the old spheres buffer before a growth reallocation:
`self.spheres_buffer` and `self.spheres_bind_group`. -/
def growInitCounts : ℕ → ℕ := fun r => if r = oldRes then 2 else 0

/-- The spheres-buffer growth path (`src/lib.rs` lines 311-333), in
source order:
0. `create_buffer_init` allocates the new buffer initialized with the
   packed bytes (line 312);
1. the assignment to `self.spheres_buffer` drops the old handle
   (the old bind group still references the old buffer) (line 312);
2. the new bind group referencing the new buffer is created (line 321);
3. the assignment to `self.spheres_bind_group` drops the old bind group
   and with it the last reference to the old buffer (line 321). -/
def growTrace : List GpuEvent :=
  [.alloc newRes, .decRef oldRes, .incRef newRes, .decRef oldRes]

/-! ## Concrete inputs used by the witnesses -/

/-- A camera with the identity orientation quaternion (the `App::new`
camera, `src/lib.rs` lines 148-155, has
`rotation = Quaternion::from_axis_angle((0,0,1), Deg(0))`, the identity). -/
def demoCamera : Camera :=
  { position := ⟨0, 0, -3⟩
    rot := ⟨1, ⟨0, 0, 0⟩⟩
    up_sky_color := ⟨1, 1, 1⟩
    down_sky_color := ⟨1/2, 7/10, 1⟩
    min_distance := 1/1000
    max_distance := 1000 }

/-- A two-sphere list for concrete evaluations. -/
def demoSpheres : List Sphere :=
  [Sphere.defaultSphere, ⟨⟨2, 0, 0⟩, 1/2, ⟨1, 0, 0⟩⟩]

/-! ## Helper lemmas -/

theorem Vec3.add_def (a b : Vec3) : a + b = ⟨a.x + b.x, a.y + b.y, a.z + b.z⟩ := rfl

theorem Vec3.smul_def (c : ℚ) (v : Vec3) : c • v = ⟨c * v.x, c * v.y, c * v.z⟩ := rfl

theorem length_flatten_packSphere (l : List Sphere) :
    ((l.map packSphere).flatten).length = 8 * l.length := by
  induction l with
  | nil => simp
  | cons s rest ih => simp [packSphere, ih]; ring

theorem packSpheres_length (l : List Sphere) :
    (packSpheres l).length = 4 + 8 * l.length := by
  simp only [packSpheres, List.length_cons]
  rw [length_flatten_packSphere]
  ring

theorem packedSpheresByteLen_eq (l : List Sphere) :
    packedSpheresByteLen l = 16 + 32 * l.length := by
  simp [packedSpheresByteLen, packSpheres_length]; ring

theorem spheresBufferByteSize_eq (n : ℕ) : spheresBufferByteSize n = 16 + 32 * n := by
  simp [spheresBufferByteSize, roundUp, structAlignOf, sphereMembers, vec3Layout,
    f32Layout, u32Layout, sphereShaderSize, shaderStructSize, structMembersEnd]

theorem packedSpheresByteLen_eq_byteSize (l : List Sphere) :
    packedSpheresByteLen l = spheresBufferByteSize l.length := by
  rw [packedSpheresByteLen_eq, spheresBufferByteSize_eq]

theorem drop_flatten_packSphere (l : List Sphere) :
    ∀ (i : ℕ), (hi : i < l.length) →
      (((l.map packSphere).flatten).drop (8 * i)).take 8 = packSphere (l.get ⟨i, hi⟩) := by
  induction l with
  | nil => intro i hi; simp at hi
  | cons s rest ih =>
    intro i hi
    cases i with
    | zero =>
      simp only [Nat.mul_zero, List.drop_zero, List.map_cons, List.flatten_cons]
      rw [List.take_left' (by simp [packSphere])]
      simp
    | succ j =>
      have hj : j < rest.length := by simpa using hi
      have h8 : 8 * (j + 1) = (packSphere s).length + 8 * j := by
        simp [packSphere]; ring
      simp only [List.map_cons, List.flatten_cons, h8, List.drop_append]
      simpa using ih j hj

theorem ceilQ_div16 (n : ℕ) : ⌈(n : ℚ) / 16⌉ = (((n + 15) / 16 : ℕ) : ℤ) := by
  have hle : 16 * ((n + 15) / 16) ≤ n + 15 := by omega
  have hge : n ≤ 16 * ((n + 15) / 16) := by
    have h0 := Nat.div_add_mod (n + 15) 16
    have h1 : (n + 15) % 16 < 16 := Nat.mod_lt _ (by norm_num)
    omega
  have hleQ : ((16 * ((n + 15) / 16) : ℕ) : ℚ) ≤ (n : ℚ) + 15 := by exact_mod_cast hle
  have hgeQ : (n : ℚ) ≤ ((16 * ((n + 15) / 16) : ℕ) : ℚ) := by exact_mod_cast hge
  push_cast at hleQ hgeQ
  rw [Int.ceil_eq_iff,
    show ((((n + 15) / 16 : ℕ) : ℤ) : ℚ) = (((n + 15) / 16 : ℕ) : ℚ) from Int.cast_natCast _]
  constructor
  · rw [lt_div_iff₀ (by norm_num : (0 : ℚ) < 16)]
    linarith
  · rw [div_le_iff₀ (by norm_num : (0 : ℚ) < 16)]
    linarith

theorem fixedUpdateLoop_spec : ∀ (m : ℕ) (acc : ℚ), (⌊acc * 60⌋).toNat = m → 0 ≤ acc →
    fixedUpdateLoop acc
      = (⌊acc / FIXED_UPDATE_TIMESTEP⌋₊,
         acc - ⌊acc / FIXED_UPDATE_TIMESTEP⌋₊ * FIXED_UPDATE_TIMESTEP) := by
  intro m
  induction m using Nat.strong_induction_on with
  | _ m ih =>
    intro acc hm hpos
    have hT : (0 : ℚ) < FIXED_UPDATE_TIMESTEP := by norm_num [FIXED_UPDATE_TIMESTEP]
    rw [fixedUpdateLoop]
    split
    case isTrue h =>
      have hmeas : (⌊(acc - FIXED_UPDATE_TIMESTEP) * 60⌋).toNat < m := by
        have h1 : (1 : ℚ) ≤ acc * 60 := by
          simp only [FIXED_UPDATE_TIMESTEP] at h; linarith
        have h2 : ⌊(acc - FIXED_UPDATE_TIMESTEP) * 60⌋ = ⌊acc * 60⌋ - 1 := by
          have he : (acc - FIXED_UPDATE_TIMESTEP) * 60 = acc * 60 - 1 := by
            simp only [FIXED_UPDATE_TIMESTEP]; ring
          rw [he, Int.floor_sub_one]
        have h3 : (1 : ℤ) ≤ ⌊acc * 60⌋ := Int.le_floor.mpr (by exact_mod_cast h1)
        omega
      have hrec := ih _ hmeas (acc - FIXED_UPDATE_TIMESTEP) rfl (by linarith)
      rw [hrec]
      have hdiv : (acc - FIXED_UPDATE_TIMESTEP) / FIXED_UPDATE_TIMESTEP
          = acc / FIXED_UPDATE_TIMESTEP - 1 := by
        rw [sub_div, div_self hT.ne']
      have h1 : (1 : ℚ) ≤ acc / FIXED_UPDATE_TIMESTEP := (one_le_div hT).mpr h
      have hge : 1 ≤ ⌊acc / FIXED_UPDATE_TIMESTEP⌋₊ := Nat.le_floor (by exact_mod_cast h1)
      have hfl : ⌊(acc - FIXED_UPDATE_TIMESTEP) / FIXED_UPDATE_TIMESTEP⌋₊
          = ⌊acc / FIXED_UPDATE_TIMESTEP⌋₊ - 1 := by
        rw [hdiv, Nat.floor_sub_one]
      rw [hfl]
      refine Prod.ext ?_ ?_
      · simp only
        omega
      · simp only
        have hc : ((⌊acc / FIXED_UPDATE_TIMESTEP⌋₊ - 1 : ℕ) : ℚ)
            = (⌊acc / FIXED_UPDATE_TIMESTEP⌋₊ : ℚ) - 1 := by
          push_cast [hge]
          ring
        rw [hc]
        ring
    case isFalse h =>
      have hlt : acc / FIXED_UPDATE_TIMESTEP < 1 := (div_lt_one hT).mpr (lt_of_not_le h)
      have h0 : ⌊acc / FIXED_UPDATE_TIMESTEP⌋₊ = 0 := Nat.floor_eq_zero.mpr hlt
      rw [h0]
      simp

theorem uiSpheresLoopAux_ok (clicks : ℕ → Bool) :
    ∀ (m : ℕ) (t : ℕ) (spheres : List Sphere) (i : ℕ), spheres.length - i = m →
      ∃ l2, uiSpheresLoopAux clicks t spheres i = .ok l2 := by
  intro m
  induction m using Nat.strong_induction_on with
  | _ m ih =>
    intro t spheres i hm
    rw [uiSpheresLoopAux]
    split
    case isTrue hi =>
      split
      case isTrue hc =>
        split
        case _ spheres2 h =>
          have hlen : spheres2.length + 1 = spheres.length := by
            simp only [removeSphere, hi, if_true] at h
            cases h
            simp [List.length_take, List.length_drop]
            omega
          exact ih (spheres2.length - i) (by omega) (t + 1) spheres2 i rfl
        case _ e h =>
          exfalso
          simp only [removeSphere, hi, if_true] at h
          exact Except.noConfusion h
      case isFalse hc =>
        exact ih (spheres.length - (i + 1)) (by omega) (t + 1) spheres (i + 1) rfl
    case isFalse hi =>
      exact ⟨spheres, rfl⟩

/-! ## Claim theorems -/

theorem dispatchCounts_ceil (ts : ℕ × ℕ) :
    ((dispatchCounts ts).1 : ℤ) = ⌈(ts.1 : ℚ) / 16⌉
    ∧ ((dispatchCounts ts).2.1 : ℤ) = ⌈(ts.2 : ℚ) / 16⌉
    ∧ (dispatchCounts ts).2.2 = 1 := by
  refine ⟨?_, ?_, rfl⟩ <;>
  · rw [ceilQ_div16]
    simp only [dispatchCounts, workgroupSize]
    norm_cast

/-- Claim C1: every frame dispatches `ceil(target_width / 16)` by
`ceil(target_height / 16)` by 1 workgroups, computed from the render
target dimensions after the conditional resize; for a target of
(800, 600) the dispatch is 50 by 38 by 1. -/
theorem spec2_C1 (t : RenderTarget) (size : ℕ × ℕ) :
    ((renderDispatch t size).1 : ℤ)
        = ⌈((ensureSize t size).texture_size.1 : ℚ) / 16⌉
    ∧ ((renderDispatch t size).2.1 : ℤ)
        = ⌈((ensureSize t size).texture_size.2 : ℚ) / 16⌉
    ∧ (renderDispatch t size).2.2 = 1
    ∧ renderDispatch t (800, 600) = (50, 38, 1) := by
  obtain ⟨h1, h2, h3⟩ := dispatchCounts_ceil ((ensureSize t size).texture_size)
  refine ⟨h1, h2, h3, ?_⟩
  simp only [renderDispatch, ensureSize]
  split_ifs with hc
  · show dispatchCounts (800, 600) = (50, 38, 1)
    decide
  · have hts : t.texture_size = (800, 600) := by
      by_contra hne
      exact hc ⟨hne, by decide, by decide⟩
    rw [hts]
    decide

/-- Claim C2: the recorded spheres-buffer capacity never decreases: the
buffer is reallocated (capacity set to the packed length) exactly when
the packed byte length strictly exceeds the recorded capacity, otherwise
the buffer is overwritten in place at offset 0 with capacity unchanged;
once the capacity fits M spheres, a list of at most M spheres never
shrinks it. -/
theorem spec2_C2 (st : SpheresBufState) (l : List Sphere) (packedLen : ℕ)
    (hp : packedLen = packedSpheresByteLen l) :
    st.size ≤ (renderSpheresBuf st packedLen).1.size
    ∧ ((renderSpheresBuf st packedLen).2 = true ↔ st.size < packedLen)
    ∧ ((renderSpheresBuf st packedLen).2 = true
        → (renderSpheresBuf st packedLen).1.size = packedLen)
    ∧ (packedLen ≤ st.size
        → (renderSpheresBuf st packedLen).1 = st
          ∧ (renderSpheresBuf st packedLen).2 = false
          ∧ spheresWriteOffset = 0)
    ∧ ∀ M : ℕ, spheresBufferByteSize M ≤ st.size → l.length ≤ M
        → (renderSpheresBuf st packedLen).1.size = st.size := by
  subst hp
  unfold renderSpheresBuf
  split_ifs with hc
  · refine ⟨le_of_lt hc, by simp [hc], fun _ => rfl,
      fun hle => absurd hc (not_lt.mpr hle), ?_⟩
    intro M hM hlen
    exfalso
    have hpl : packedSpheresByteLen l ≤ st.size := by
      rw [packedSpheresByteLen_eq]
      have hb := spheresBufferByteSize_eq M
      omega
    omega
  · exact ⟨le_refl _, by simpa using hc, by simp,
      fun _ => ⟨rfl, rfl, rfl⟩, fun M hM hlen => rfl⟩

/-- Witness for C2 at the initial state: capacity 48, one default sphere
(packed length 48). -/
theorem spec2_C2_witness :
    (⟨48, 48⟩ : SpheresBufState).size ≤ (renderSpheresBuf ⟨48, 48⟩ 48).1.size
    ∧ ((renderSpheresBuf ⟨48, 48⟩ 48).2 = true
        ↔ (⟨48, 48⟩ : SpheresBufState).size < 48) :=
  ⟨(spec2_C2 ⟨48, 48⟩ initialSpheresStorage 48 (by decide)).1,
   (spec2_C2 ⟨48, 48⟩ initialSpheresStorage 48 (by decide)).2.1⟩

/-- Claim C3: the render target is recreated iff the requested size
differs from the recorded size and both dimensions are nonzero; a
zero-dimension request changes nothing, a same-size request changes
nothing, resizing is idempotent, and a recreation records the new size. -/
theorem spec2_C3 (t : RenderTarget) (size : ℕ × ℕ) :
    ((ensureSize t size).textureGen ≠ t.textureGen
        ↔ t.texture_size ≠ size ∧ size.1 ≠ 0 ∧ size.2 ≠ 0)
    ∧ (size.1 = 0 ∨ size.2 = 0 → ensureSize t size = t)
    ∧ (t.texture_size = size → ensureSize t size = t)
    ∧ ensureSize (ensureSize t size) size = ensureSize t size
    ∧ ((ensureSize t size).textureGen ≠ t.textureGen
        → (ensureSize t size).texture_size = size) := by
  by_cases hc : t.texture_size ≠ size ∧ size.1 ≠ 0 ∧ size.2 ≠ 0
  · have he : ensureSize t size
        = { texture_size := size, textureGen := t.textureGen + 1,
            bindGen := t.bindGen + 1 } := by
      unfold ensureSize
      rw [if_pos hc]
    refine ⟨?_, ?_, ?_, ?_, ?_⟩
    · rw [he]
      simp only
      constructor
      · intro _; exact hc
      · intro _; omega
    · intro h0
      exfalso
      rcases h0 with h0 | h0
      · exact hc.2.1 h0
      · exact hc.2.2 h0
    · intro hsame
      exact absurd hsame hc.1
    · rw [he]
      unfold ensureSize
      rw [if_neg (by simp)]
    · intro _
      rw [he]
  · have he : ensureSize t size = t := by
      unfold ensureSize
      rw [if_neg hc]
    refine ⟨?_, fun _ => he, fun _ => he, ?_, ?_⟩
    · rw [he]
      constructor
      · intro hfalse
        exact absurd rfl hfalse
      · intro hcond
        exact absurd hcond hc
    · rw [he, he]
    · intro hne
      exfalso
      rw [he] at hne
      exact hne rfl

/-- Witness for C3: a zero-height request is ignored, and a repeated
(800, 600) request is a no-op the second time. -/
theorem spec2_C3_witness :
    ensureSize ⟨(1, 1), 0, 0⟩ (800, 0) = ⟨(1, 1), 0, 0⟩
    ∧ ensureSize (ensureSize ⟨(1, 1), 0, 0⟩ (800, 600)) (800, 600)
        = ensureSize ⟨(1, 1), 0, 0⟩ (800, 600) :=
  ⟨(spec2_C3 ⟨(1, 1), 0, 0⟩ (800, 0)).2.1 (Or.inr rfl),
   (spec2_C3 ⟨(1, 1), 0, 0⟩ (800, 600)).2.2.2.1⟩

/-- Claim C7: the distance mutation interface clamps `min_distance` to a
floor of 0.0001 and `max_distance` to a floor of 0.0; setting
`min_distance` to -5 yields 0.0001 and setting `max_distance` to -1
yields 0.0. -/
theorem spec2_C7 (camera : Camera) (v w : ℚ) :
    (applyMinDistanceEdit camera v).min_distance = max v (1 / 10000)
    ∧ 1 / 10000 ≤ (applyMinDistanceEdit camera v).min_distance
    ∧ (applyMaxDistanceEdit camera w).max_distance = max w 0
    ∧ 0 ≤ (applyMaxDistanceEdit camera w).max_distance
    ∧ (applyMinDistanceEdit camera (-5)).min_distance = 1 / 10000
    ∧ (applyMaxDistanceEdit camera (-1)).max_distance = 0 := by
  refine ⟨rfl, le_max_right _ _, rfl, le_max_right _ _, ?_, ?_⟩
  · show max (-5 : ℚ) (1 / 10000) = 1 / 10000
    rw [max_eq_right (by norm_num)]
  · show max (-1 : ℚ) 0 = 0
    rw [max_eq_right (by norm_num)]

/-- Claim C10: the recorded `spheres_buffer_size` always equals the byte
size of the allocated spheres buffer (at construction and across render
steps), so whenever the in-place-write branch is taken the packed length
fits in the allocated buffer. -/
theorem spec2_C10 :
    initSpheresBufState.size = initSpheresBufState.alloc
    ∧ ∀ (st : SpheresBufState) (packedLen : ℕ), st.size = st.alloc →
        ((renderSpheresBuf st packedLen).1.size
            = (renderSpheresBuf st packedLen).1.alloc
          ∧ ((renderSpheresBuf st packedLen).2 = false → packedLen ≤ st.alloc)) := by
  refine ⟨rfl, ?_⟩
  intro st packedLen hinv
  unfold renderSpheresBuf
  split_ifs with hc
  · exact ⟨rfl, by simp⟩
  · exact ⟨hinv, fun _ => by omega⟩

/-- Witness for C10 at a concrete state with `size = alloc = 48` and
packed length 48 (the in-place branch). -/
theorem spec2_C10_witness :
    (renderSpheresBuf ⟨48, 48⟩ 48).1.size = (renderSpheresBuf ⟨48, 48⟩ 48).1.alloc
    ∧ ((renderSpheresBuf ⟨48, 48⟩ 48).2 = false
        → 48 ≤ (⟨48, 48⟩ : SpheresBufState).alloc) :=
  spec2_C10.2 ⟨48, 48⟩ 48 rfl

/-- Claim C4: the fixed-step clock fires exactly
`floor(accumulator / step)` ticks per frame and leaves a residual
accumulator in `[0, step)`; for an accumulated time of `2.5 * step`
exactly 2 ticks fire and the residual is `0.5 * step`. -/
theorem spec2_C4 (acc : ℚ) (hpos : 0 ≤ acc) :
    (fixedUpdateLoop acc).1 = ⌊acc / FIXED_UPDATE_TIMESTEP⌋₊
    ∧ (fixedUpdateLoop acc).2
        = acc - ⌊acc / FIXED_UPDATE_TIMESTEP⌋₊ * FIXED_UPDATE_TIMESTEP
    ∧ 0 ≤ (fixedUpdateLoop acc).2
    ∧ (fixedUpdateLoop acc).2 < FIXED_UPDATE_TIMESTEP
    ∧ fixedUpdateLoop (5 / 2 * FIXED_UPDATE_TIMESTEP)
        = (2, 1 / 2 * FIXED_UPDATE_TIMESTEP) := by
  have hmain := fixedUpdateLoop_spec _ acc rfl hpos
  have hT : (0 : ℚ) < FIXED_UPDATE_TIMESTEP := by norm_num [FIXED_UPDATE_TIMESTEP]
  have hfl_le : (⌊acc / FIXED_UPDATE_TIMESTEP⌋₊ : ℚ) ≤ acc / FIXED_UPDATE_TIMESTEP :=
    Nat.floor_le (div_nonneg hpos hT.le)
  have hfl_lt : acc / FIXED_UPDATE_TIMESTEP < ⌊acc / FIXED_UPDATE_TIMESTEP⌋₊ + 1 :=
    Nat.lt_floor_add_one _
  have hmul_le := (le_div_iff₀ hT).mp hfl_le
  have hmul_lt := (div_lt_iff₀ hT).mp hfl_lt
  refine ⟨by rw [hmain], by rw [hmain], ?_, ?_, ?_⟩
  · rw [hmain]
    simp only
    linarith
  · rw [hmain]
    simp only
    linarith
  · have h5 : (0 : ℚ) ≤ 5 / 2 * FIXED_UPDATE_TIMESTEP := by
      norm_num [FIXED_UPDATE_TIMESTEP]
    have hconc := fixedUpdateLoop_spec _ (5 / 2 * FIXED_UPDATE_TIMESTEP) rfl h5
    rw [hconc]
    have hq : (5 / 2 * FIXED_UPDATE_TIMESTEP) / FIXED_UPDATE_TIMESTEP = 5 / 2 := by
      field_simp
      ring
    rw [hq]
    have hfl : ⌊(5 / 2 : ℚ)⌋₊ = 2 := by
      rw [Nat.floor_eq_iff (by norm_num)]
      norm_num
    rw [hfl]
    refine Prod.ext rfl ?_
    simp only
    norm_num [FIXED_UPDATE_TIMESTEP]

/-- Witness for C4 at `acc = 1/24 = 2.5 * step`. -/
theorem spec2_C4_witness :
    (0 : ℚ) ≤ 1 / 24
    ∧ (fixedUpdateLoop (1 / 24)).1 = ⌊(1 / 24 : ℚ) / FIXED_UPDATE_TIMESTEP⌋₊ :=
  ⟨by norm_num, (spec2_C4 (1 / 24) (by norm_num)).1⟩

/-- Claim C5: for every sphere list the packed storage buffer has exactly
`header_size + N * record_size` bytes (16 + 32 N), begins with the
element count as a fixed-width unsigned integer, and record `i` is
exactly the packed sphere `i` (position, radius, color, padding to the
16-byte-aligned stride). -/
theorem spec2_C5 (l : List Sphere) :
    packedSpheresByteLen l = spheresBufferByteSize l.length
    ∧ spheresBufferByteSize l.length = 16 + 32 * l.length
    ∧ (packSpheres l).head? = some (.u32 l.length)
    ∧ sphereShaderSize = 32
    ∧ sphereShaderSize % 16 = 0
    ∧ ∀ (i : ℕ) (hi : i < l.length),
        ((packSpheres l).drop (4 + 8 * i)).take 8 = packSphere (l.get ⟨i, hi⟩) := by
  refine ⟨packedSpheresByteLen_eq_byteSize l, spheresBufferByteSize_eq l.length,
    rfl, rfl, rfl, ?_⟩
  intro i hi
  have hps : packSpheres l
      = [PackedWord.u32 l.length, .pad, .pad, .pad] ++ (l.map packSphere).flatten :=
    rfl
  rw [hps,
    show 4 + 8 * i
        = ([PackedWord.u32 l.length, PackedWord.pad, PackedWord.pad,
            PackedWord.pad]).length + 8 * i by simp,
    List.drop_append]
  exact drop_flatten_packSphere l i hi

/-- Witness for C5: record 1 of the two-sphere demo list. -/
theorem spec2_C5_witness :
    ((packSpheres demoSpheres).drop (4 + 8 * 1)).take 8
      = packSphere (demoSpheres.get ⟨1, by decide⟩) :=
  (spec2_C5 demoSpheres).2.2.2.2.2 1 (by decide)

theorem rotate_fwd_unit (q : Quat)
    (h : q.s ^ 2 + q.v.x ^ 2 + q.v.y ^ 2 + q.v.z ^ 2 = 1) :
    (q.rotateVec ⟨0, 0, 1⟩).dot (q.rotateVec ⟨0, 0, 1⟩) = 1 := by
  obtain ⟨s, x, y, z⟩ := q
  simp only [Quat.rotateVec, Vec3.cross, Vec3.add_def, Vec3.smul_def, Vec3.dot] at h ⊢
  linear_combination (4 * (x ^ 2 + y ^ 2)) * h

theorem rotate_right_unit (q : Quat)
    (h : q.s ^ 2 + q.v.x ^ 2 + q.v.y ^ 2 + q.v.z ^ 2 = 1) :
    (q.rotateVec ⟨1, 0, 0⟩).dot (q.rotateVec ⟨1, 0, 0⟩) = 1 := by
  obtain ⟨s, x, y, z⟩ := q
  simp only [Quat.rotateVec, Vec3.cross, Vec3.add_def, Vec3.smul_def, Vec3.dot] at h ⊢
  linear_combination (4 * (y ^ 2 + z ^ 2)) * h

theorem rotate_up_unit (q : Quat)
    (h : q.s ^ 2 + q.v.x ^ 2 + q.v.y ^ 2 + q.v.z ^ 2 = 1) :
    (q.rotateVec ⟨0, 1, 0⟩).dot (q.rotateVec ⟨0, 1, 0⟩) = 1 := by
  obtain ⟨s, x, y, z⟩ := q
  simp only [Quat.rotateVec, Vec3.cross, Vec3.add_def, Vec3.smul_def, Vec3.dot] at h ⊢
  linear_combination (4 * (x ^ 2 + z ^ 2)) * h

theorem rotate_fwd_right_orth (q : Quat)
    (h : q.s ^ 2 + q.v.x ^ 2 + q.v.y ^ 2 + q.v.z ^ 2 = 1) :
    (q.rotateVec ⟨0, 0, 1⟩).dot (q.rotateVec ⟨1, 0, 0⟩) = 0 := by
  obtain ⟨s, x, y, z⟩ := q
  simp only [Quat.rotateVec, Vec3.cross, Vec3.add_def, Vec3.smul_def, Vec3.dot] at h ⊢
  linear_combination (-4 * x * z) * h

theorem rotate_fwd_up_orth (q : Quat)
    (h : q.s ^ 2 + q.v.x ^ 2 + q.v.y ^ 2 + q.v.z ^ 2 = 1) :
    (q.rotateVec ⟨0, 0, 1⟩).dot (q.rotateVec ⟨0, 1, 0⟩) = 0 := by
  obtain ⟨s, x, y, z⟩ := q
  simp only [Quat.rotateVec, Vec3.cross, Vec3.add_def, Vec3.smul_def, Vec3.dot] at h ⊢
  linear_combination (-4 * y * z) * h

theorem rotate_right_up_orth (q : Quat)
    (h : q.s ^ 2 + q.v.x ^ 2 + q.v.y ^ 2 + q.v.z ^ 2 = 1) :
    (q.rotateVec ⟨1, 0, 0⟩).dot (q.rotateVec ⟨0, 1, 0⟩) = 0 := by
  obtain ⟨s, x, y, z⟩ := q
  simp only [Quat.rotateVec, Vec3.cross, Vec3.add_def, Vec3.smul_def, Vec3.dot] at h ⊢
  linear_combination (-4 * x * y) * h

theorem packCameraUniform_length (u : CameraUniform) :
    (packCameraUniform u).length = 28 := rfl

/-- Claim C6: packing a Camera as a CameraUniform yields exactly the
declared fixed uniform size (112 bytes), copies position, sky colors and
the distance bounds unchanged, sets forward/right/up to the orientation
quaternion applied to (0,0,1), (1,0,0), (0,1,0), and for a unit
quaternion those three vectors are mutually orthogonal unit vectors. -/
theorem spec2_C6 (camera : Camera)
    (h : camera.rot.s ^ 2 + camera.rot.v.x ^ 2
        + camera.rot.v.y ^ 2 + camera.rot.v.z ^ 2 = 1) :
    4 * (packCameraUniform (CameraUniform.fromCamera camera)).length
        = cameraUniformShaderSize
    ∧ cameraUniformShaderSize = 112
    ∧ (CameraUniform.fromCamera camera).position = camera.position
    ∧ (CameraUniform.fromCamera camera).up_sky_color = camera.up_sky_color
    ∧ (CameraUniform.fromCamera camera).down_sky_color = camera.down_sky_color
    ∧ (CameraUniform.fromCamera camera).min_distance = camera.min_distance
    ∧ (CameraUniform.fromCamera camera).max_distance = camera.max_distance
    ∧ (CameraUniform.fromCamera camera).forward = camera.rot.rotateVec ⟨0, 0, 1⟩
    ∧ (CameraUniform.fromCamera camera).right = camera.rot.rotateVec ⟨1, 0, 0⟩
    ∧ (CameraUniform.fromCamera camera).up = camera.rot.rotateVec ⟨0, 1, 0⟩
    ∧ (CameraUniform.fromCamera camera).forward.dot
        (CameraUniform.fromCamera camera).forward = 1
    ∧ (CameraUniform.fromCamera camera).right.dot
        (CameraUniform.fromCamera camera).right = 1
    ∧ (CameraUniform.fromCamera camera).up.dot
        (CameraUniform.fromCamera camera).up = 1
    ∧ (CameraUniform.fromCamera camera).forward.dot
        (CameraUniform.fromCamera camera).right = 0
    ∧ (CameraUniform.fromCamera camera).forward.dot
        (CameraUniform.fromCamera camera).up = 0
    ∧ (CameraUniform.fromCamera camera).right.dot
        (CameraUniform.fromCamera camera).up = 0 := by
  refine ⟨?_, by decide, rfl, rfl, rfl, rfl, rfl, rfl, rfl, rfl,
    rotate_fwd_unit camera.rot h, rotate_right_unit camera.rot h,
    rotate_up_unit camera.rot h, rotate_fwd_right_orth camera.rot h,
    rotate_fwd_up_orth camera.rot h, rotate_right_up_orth camera.rot h⟩
  rw [packCameraUniform_length]
  decide

/-- Witness for C6 at the identity-orientation demo camera. -/
theorem spec2_C6_witness :
    demoCamera.rot.s ^ 2 + demoCamera.rot.v.x ^ 2
        + demoCamera.rot.v.y ^ 2 + demoCamera.rot.v.z ^ 2 = 1
    ∧ (CameraUniform.fromCamera demoCamera).forward.dot
        (CameraUniform.fromCamera demoCamera).forward = 1 :=
  ⟨by norm_num [demoCamera], (spec2_C6 demoCamera (by norm_num [demoCamera])).2.2.2.2.2.2.2.2.2.2.1⟩

/-- Claim C8: in both replacement paths of `App::render` the old GPU
resource stays referenced (bound) through every intermediate step and is
destroyed only by the final binding swap, strictly after the new
allocation of the new resource and after the new bind group exists: for the
render-target trace the old texture dies at event 4 (allocation of the
new texture at event 1, new bind group at event 3, positive reference
count after events 0-3), and for the spheres-buffer trace the old buffer
dies at event 3 (allocation at event 0, new bind group at event 2,
positive reference count after events 0-2). -/
theorem spec2_C8 :
    (destroyedAt resizeInitCounts resizeTrace oldRes = some 4
      ∧ allocIdx resizeTrace newRes = some 1
      ∧ resizeTrace.get? 3 = some (.incRef newRes)
      ∧ resizeTrace.length = 5
      ∧ runEvents resizeInitCounts (resizeTrace.take 1) oldRes = 1
      ∧ runEvents resizeInitCounts (resizeTrace.take 2) oldRes = 1
      ∧ runEvents resizeInitCounts (resizeTrace.take 3) oldRes = 1
      ∧ runEvents resizeInitCounts (resizeTrace.take 4) oldRes = 1
      ∧ runEvents resizeInitCounts resizeTrace oldRes = 0)
    ∧ (destroyedAt growInitCounts growTrace oldRes = some 3
      ∧ allocIdx growTrace newRes = some 0
      ∧ growTrace.get? 2 = some (.incRef newRes)
      ∧ growTrace.length = 4
      ∧ runEvents growInitCounts (growTrace.take 1) oldRes = 2
      ∧ runEvents growInitCounts (growTrace.take 2) oldRes = 1
      ∧ runEvents growInitCounts (growTrace.take 3) oldRes = 1
      ∧ runEvents growInitCounts growTrace oldRes = 0) := by
  decide

/-- Claim C9: a removal request with an out-of-range index is rejected by
the bounds check before any mutation (no resulting sequence is ever
produced for it), and the removal loop of the app itself never issues an
out-of-range removal (it always terminates successfully). -/
theorem spec2_C9 (spheres : List Sphere) (i : ℕ) (hout : spheres.length ≤ i) :
    removeSphere spheres i = .error ("removal index out of range")
    ∧ (∀ l2, removeSphere spheres i ≠ .ok l2)
    ∧ ∀ (clicks : ℕ → Bool) (l : List Sphere),
        ∃ l2, uiSpheresLoop clicks l = .ok l2 := by
  have herr : removeSphere spheres i = .error ("removal index out of range") := by
    unfold removeSphere
    rw [if_neg (by omega)]
  refine ⟨herr, ?_, ?_⟩
  · intro l2 hok
    rw [herr] at hok
    exact Except.noConfusion hok
  · intro clicks l
    exact uiSpheresLoopAux_ok clicks (l.length - 0) 0 l 0 rfl

/-- Witness for C9: index 0 on the empty list is rejected, and a
delete-everything pass over the demo list succeeds. -/
theorem spec2_C9_witness :
    removeSphere [] 0 = .error ("removal index out of range")
    ∧ ∃ l2, uiSpheresLoop (fun _ => true) demoSpheres = .ok l2 :=
  ⟨(spec2_C9 [] 0 (by decide)).1,
   (spec2_C9 [] 0 (by decide)).2.2 (fun _ => true) demoSpheres⟩
